import Mathlib

/-!
Verification of the bootstrap and lifecycle core of the validator client
(`src/validator_client/src/lib.rs`): connection establishment, compatibility
validation, time-source derivation, validator-store selection, service wiring
and service startup.

The embedding is shallow: each Rust function of `lib.rs` becomes an executable
Lean function over explicit inputs; the external collaborators that `lib.rs`
calls through narrow interfaces (the HTTP client, the validator-store
constructors, the per-service `start_update_service` timers) are passed in as
oracle parameters of type `Except String _`, exactly as the futures in the
source either yield a value or an error string.
-/

/-- The spec-defining constants carried inside an `Eth2Config`
(`context.eth2_config.spec`): the fields of `ChainSpec` that `lib.rs` reads
are `genesis_slot` and `milliseconds_per_slot` (lines 131 and 133). -/
structure ChainSpec where
  genesis_slot : Nat
  milliseconds_per_slot : Nat
deriving DecidableEq, Repr

/-- `Eth2Config`: the identity field `spec_constants` compared at line 114,
plus the full constant set `spec` adopted at line 128. -/
structure Eth2Config where
  spec_constants : String
  spec : ChainSpec
deriving DecidableEq, Repr

/-- `RuntimeContext` as used by `lib.rs`: it carries the local `eth2_config`
(mutated at line 128) and is specialised per service via `service_context`. -/
structure RuntimeContext where
  eth2_config : Eth2Config
  service_name : String
deriving DecidableEq, Repr

/-- `context.service_context(name)` (lines 167, 173, 182, 191): a sub-context
for one service, sharing the parent's `eth2_config`. -/
def RuntimeContext.service_context (c : RuntimeContext) (name : String) : RuntimeContext :=
  { c with service_name := name }

/-- A `RemoteBeaconNode` handle. `lib.rs` treats it as opaque and cloneable;
the `id` distinguishes a handle from a freshly constructed one
(`RemoteBeaconNode::new` would mint a new `id`). -/
structure RemoteBeaconNode where
  id : Nat
deriving DecidableEq, Repr

/-- Rust `Clone` on `RemoteBeaconNode` yields a handle to the same remote with
the same connection state: in the model, the same value. -/
def RemoteBeaconNode.clone (n : RemoteBeaconNode) : RemoteBeaconNode := n

/-- Modelled from the spec: `SystemTimeSlotClock` lives in the `slot_clock`
crate, which is not under `src/`; per §4.3 the time source is a pure function
of genesis time, genesis slot and slot duration.  `lib.rs` line 130 constructs
it from `genesis_slot`, `Duration::from_secs(genesis_time)` and
`Duration::from_millis(milliseconds_per_slot)`. -/
structure SystemTimeSlotClock where
  genesis_slot : Nat
  genesis_seconds : Nat
  slot_duration_millis : Nat
deriving DecidableEq, Repr

/-- `SystemTimeSlotClock::new(genesis_slot, genesis_duration, slot_duration)`
(lines 130-134); durations are kept as the second/millisecond counts the
source passes. -/
def SystemTimeSlotClock.new (genesis_slot genesis_seconds slot_duration_millis : Nat) :
    SystemTimeSlotClock :=
  ⟨genesis_slot, genesis_seconds, slot_duration_millis⟩

/-- Modelled from the spec: `slot_for(time)` maps a wall-clock time (seconds)
to a slot number — genesis slot plus the number of whole slot durations
elapsed since genesis (§4.3, §8).  Times before genesis clamp to the genesis
slot (Nat subtraction truncates). -/
def SystemTimeSlotClock.slot_for (c : SystemTimeSlotClock) (t : Nat) : Nat :=
  c.genesis_slot + (t - c.genesis_seconds) * 1000 / c.slot_duration_millis

/-- `ValidatorStore`: `lib.rs` only reads `num_voting_validators` (line 160)
and clones the store into the service builders; internals live in the
`validator_store` module. -/
structure ValidatorStore where
  num_voting_validators : Nat
deriving DecidableEq, Repr

/-- `KeySource` from the `config` module: the two mutually exclusive
validator-store construction modes matched at lines 136-155. -/
inductive KeySource where
  | Disk : KeySource
  | TestingKeypairRange : Nat × Nat → KeySource
deriving DecidableEq, Repr

/-- The slice of `ClientConfig` that `ProductionValidatorClient::new` reads:
the key source (line 136) and the data directory handed to
`ValidatorStore::load_from_disk` (line 141). -/
structure ClientConfig where
  data_dir : String
  key_source : KeySource
deriving DecidableEq, Repr

/-- An `exit_future::Signal`: the cancellation handle a started service
returns; opaque to `lib.rs`. -/
structure Signal where
  id : Nat
deriving DecidableEq, Repr

/-- `RETRY_DELAY` (line 37 of `lib.rs`): the fixed delay, in seconds, armed
between liveness probes. -/
def RETRY_DELAY : Nat := 2

/-- The `loop_fn` body of `wait_for_node` (lines 245-282), observed for `fuel`
iterations starting at probe index `i`; `probe i` is the outcome of the i-th
`get_version` call.  Each iteration probes a clone of the loop state and
either breaks with the state (success) or arms a `RETRY_DELAY` timer and
continues with the same state (failure).  Returns the break value if reached
within `fuel` iterations, the number of probes issued, and the delays armed. -/
def waitForNodeLoop (probe : Nat → Except String String) (state : RemoteBeaconNode) :
    Nat → Nat → Option RemoteBeaconNode × Nat × List Nat
  | 0, _ => (none, 0, [])
  | fuel + 1, i =>
    match probe i with
    | .ok _ => (some state, 1, [])
    | .error _ =>
      let r := waitForNodeLoop probe state fuel (i + 1)
      (r.1, r.2.1 + 1, RETRY_DELAY :: r.2.2)

/-- `wait_for_node` (lines 240-284): runs the retry loop on
`beacon_node.clone()` and, on success, `.map(|_| beacon_node)` yields the
original handle that was passed in.  The source loop is unbounded; `fuel`
bounds how many iterations the model observes, and divergence is expressed by
quantifying over all `fuel`. -/
def wait_for_node (probe : Nat → Except String String) (beacon_node : RemoteBeaconNode)
    (fuel : Nat) : Option RemoteBeaconNode × Nat × List Nat :=
  let r := waitForNodeLoop probe beacon_node.clone fuel 0
  (r.1.map fun _ => beacon_node, r.2)

/-- `DutiesService` handle: records the dependencies `lib.rs` wires into its
builder (lines 163-168); internals live in the `duties_service` module. -/
structure DutiesService where
  slot_clock : SystemTimeSlotClock
  validator_store : ValidatorStore
  beacon_node : RemoteBeaconNode
  runtime_context : RuntimeContext
deriving DecidableEq, Repr

/-- `ForkService` handle: dependencies wired at lines 170-174. -/
structure ForkService where
  slot_clock : SystemTimeSlotClock
  beacon_node : RemoteBeaconNode
  runtime_context : RuntimeContext
deriving DecidableEq, Repr

/-- `BlockService` handle: dependencies wired at lines 176-183, including the
already-constructed duties and fork services. -/
structure BlockService where
  duties_service : DutiesService
  fork_service : ForkService
  slot_clock : SystemTimeSlotClock
  validator_store : ValidatorStore
  beacon_node : RemoteBeaconNode
  runtime_context : RuntimeContext
deriving DecidableEq, Repr

/-- `AttestationService` handle: dependencies wired at lines 185-192. -/
structure AttestationService where
  duties_service : DutiesService
  fork_service : ForkService
  slot_clock : SystemTimeSlotClock
  validator_store : ValidatorStore
  beacon_node : RemoteBeaconNode
  runtime_context : RuntimeContext
deriving DecidableEq, Repr

/-- Modelled from the spec: `DutiesServiceBuilder` (the `duties_service`
module is not under `src/`) — optional fields for each dependency setter
chained in `lib.rs` lines 163-167. -/
structure DutiesServiceBuilder where
  slot_clock : Option SystemTimeSlotClock := none
  validator_store : Option ValidatorStore := none
  beacon_node : Option RemoteBeaconNode := none
  runtime_context : Option RuntimeContext := none
deriving DecidableEq, Repr

/-- `DutiesServiceBuilder::new()` (line 163): no dependency set. -/
def DutiesServiceBuilder.new : DutiesServiceBuilder := {}

/-- Modelled from the spec: `build()` validates completeness, erroring on the
first missing required dependency. -/
def DutiesServiceBuilder.build (b : DutiesServiceBuilder) : Except String DutiesService :=
  match b.slot_clock, b.validator_store, b.beacon_node, b.runtime_context with
  | none, _, _, _ => .error "duties service requires a slot clock"
  | _, none, _, _ => .error "duties service requires a validator store"
  | _, _, none, _ => .error "duties service requires a beacon node"
  | _, _, _, none => .error "duties service requires a runtime context"
  | some sc, some vs, some bn, some rc => .ok ⟨sc, vs, bn, rc⟩

/-- Modelled from the spec: `ForkServiceBuilder` (the `fork_service` module
is not under `src/`) — setters chained in `lib.rs` lines 170-173. -/
structure ForkServiceBuilder where
  slot_clock : Option SystemTimeSlotClock := none
  beacon_node : Option RemoteBeaconNode := none
  runtime_context : Option RuntimeContext := none
deriving DecidableEq, Repr

/-- `ForkServiceBuilder::new()` (line 170). -/
def ForkServiceBuilder.new : ForkServiceBuilder := {}

/-- Modelled from the spec: `build()` validates completeness. -/
def ForkServiceBuilder.build (b : ForkServiceBuilder) : Except String ForkService :=
  match b.slot_clock, b.beacon_node, b.runtime_context with
  | none, _, _ => .error "fork service requires a slot clock"
  | _, none, _ => .error "fork service requires a beacon node"
  | _, _, none => .error "fork service requires a runtime context"
  | some sc, some bn, some rc => .ok ⟨sc, bn, rc⟩

/-- Modelled from the spec: `BlockServiceBuilder` (the `block_service` module
is not under `src/`) — setters chained in `lib.rs` lines 176-182, including
the duties-service and fork-service dependencies. -/
structure BlockServiceBuilder where
  duties_service : Option DutiesService := none
  fork_service : Option ForkService := none
  slot_clock : Option SystemTimeSlotClock := none
  validator_store : Option ValidatorStore := none
  beacon_node : Option RemoteBeaconNode := none
  runtime_context : Option RuntimeContext := none
deriving DecidableEq, Repr

/-- `BlockServiceBuilder::new()` (line 176). -/
def BlockServiceBuilder.new : BlockServiceBuilder := {}

/-- Modelled from the spec: `build()` validates completeness; in particular a
missing fork service is a construction error, never a partial handle. -/
def BlockServiceBuilder.build (b : BlockServiceBuilder) : Except String BlockService :=
  match b.duties_service, b.fork_service, b.slot_clock, b.validator_store,
      b.beacon_node, b.runtime_context with
  | none, _, _, _, _, _ => .error "block service requires a duties service"
  | _, none, _, _, _, _ => .error "block service requires a fork service"
  | _, _, none, _, _, _ => .error "block service requires a slot clock"
  | _, _, _, none, _, _ => .error "block service requires a validator store"
  | _, _, _, _, none, _ => .error "block service requires a beacon node"
  | _, _, _, _, _, none => .error "block service requires a runtime context"
  | some ds, some fs, some sc, some vs, some bn, some rc =>
    .ok ⟨ds, fs, sc, vs, bn, rc⟩

/-- Modelled from the spec: `AttestationServiceBuilder` (the
`attestation_service` module is not under `src/`) — setters chained in
`lib.rs` lines 185-191. -/
structure AttestationServiceBuilder where
  duties_service : Option DutiesService := none
  fork_service : Option ForkService := none
  slot_clock : Option SystemTimeSlotClock := none
  validator_store : Option ValidatorStore := none
  beacon_node : Option RemoteBeaconNode := none
  runtime_context : Option RuntimeContext := none
deriving DecidableEq, Repr

/-- `AttestationServiceBuilder::new()` (line 185). -/
def AttestationServiceBuilder.new : AttestationServiceBuilder := {}

/-- Modelled from the spec: `build()` validates completeness. -/
def AttestationServiceBuilder.build (b : AttestationServiceBuilder) :
    Except String AttestationService :=
  match b.duties_service, b.fork_service, b.slot_clock, b.validator_store,
      b.beacon_node, b.runtime_context with
  | none, _, _, _, _, _ => .error "attestation service requires a duties service"
  | _, none, _, _, _, _ => .error "attestation service requires a fork service"
  | _, _, none, _, _, _ => .error "attestation service requires a slot clock"
  | _, _, _, none, _, _ => .error "attestation service requires a validator store"
  | _, _, _, _, none, _ => .error "attestation service requires a beacon node"
  | _, _, _, _, _, none => .error "attestation service requires a runtime context"
  | some ds, some fs, some sc, some vs, some bn, some rc =>
    .ok ⟨ds, fs, sc, vs, bn, rc⟩

/-- The error message built at lines 115-118: the format string
"Beacon node is using an incompatible spec. Got {}, expected {}" applied to
the remote and the local `spec_constants`. -/
def incompatibleMsg (remote loc : String) : String :=
  "Beacon node is using an incompatible spec. Got " ++ remote ++ ", expected " ++ loc

/-- The compatibility check of lines 112-128: reject a remote with different
`spec_constants`; otherwise assume the remote's whole `eth2_config`
(`context.eth2_config = remote_eth2_config`, line 128). -/
def validateCompat (context : RuntimeContext) (remote_eth2_config : Eth2Config) :
    Except String RuntimeContext :=
  if context.eth2_config.spec_constants ≠ remote_eth2_config.spec_constants then
    .error (incompatibleMsg remote_eth2_config.spec_constants
      context.eth2_config.spec_constants)
  else
    .ok { context with eth2_config := remote_eth2_config }

/-- `s` contains `sub` as a contiguous substring. -/
def containsSub (s sub : String) : Prop := ∃ pre post, s = pre ++ sub ++ post

/-- A completed bootstrap stage of `ProductionValidatorClient::new`, in the
order the stages appear in the source. -/
inductive Stage where
  | connected : Stage
  | fetchEth2Config : Stage
  | fetchGenesisTime : Stage
  | compatValidation : Stage
  | adoptRemoteConfig : Stage
  | buildSlotClock : Stage
  | buildStoreDisk : Stage
  | buildStoreEphemeral : Stage
  | reportCount : Nat → Stage
  | buildDuties : Stage
  | buildFork : Stage
  | buildBlock : Stage
  | buildAttestation : Stage
deriving DecidableEq, Repr

/-- Which validator-store constructor the `match` at lines 136-155 invokes
for a given key source. -/
def storeStage (ks : KeySource) : Stage :=
  match ks with
  | .Disk => .buildStoreDisk
  | .TestingKeypairRange _ => .buildStoreEphemeral

/-- The validator client (the `Self` built at lines 194-201). -/
structure ProductionValidatorClient where
  context : RuntimeContext
  duties_service : DutiesService
  fork_service : ForkService
  block_service : BlockService
  attestation_service : AttestationService
  exit_signals : List Signal
deriving DecidableEq, Repr

/-- The validator-store selection `match` of lines 136-155: `KeySource::Disk`
invokes `ValidatorStore::load_from_disk` on the configured data directory,
`KeySource::TestingKeypairRange(range)` invokes
`ValidatorStore::insecure_ephemeral_validators` on the range; both receive
the adopted spec.  The two constructors are oracles (the `validator_store`
module is external to `lib.rs`). -/
def selectStore (ks : KeySource) (data_dir : String) (spec : ChainSpec)
    (load_from_disk : String → ChainSpec → Except String ValidatorStore)
    (insecure_ephemeral : Nat × Nat → ChainSpec → Except String ValidatorStore) :
    Except String ValidatorStore :=
  match ks with
  | .Disk => load_from_disk data_dir spec
  | .TestingKeypairRange range => insecure_ephemeral range spec

/-- `ProductionValidatorClient::new` from `wait_for_node` (line 95) to the
final `Ok(Self { .. })` (lines 194-201).  The external calls are oracles:
`probe` feeds `wait_for_node`, `spec_req` is the `get_eth2_config` fetch
(lines 96-103), `genesis_req` the `get_genesis_time` fetch (lines 104-111),
`load_from_disk` and `insecure_ephemeral` the two `ValidatorStore`
constructors (lines 140-154).  The result is `none` while the node is still
unreachable within `fuel`, otherwise the `Result`; paired with the trace of
completed bootstrap stages in source order. -/
def ProductionValidatorClient.new
    (probe : Nat → Except String String) (fuel : Nat)
    (spec_req : Except String Eth2Config)
    (genesis_req : Except String Nat)
    (load_from_disk : String → ChainSpec → Except String ValidatorStore)
    (insecure_ephemeral : Nat × Nat → ChainSpec → Except String ValidatorStore)
    (context : RuntimeContext) (client_config : ClientConfig)
    (beacon_node : RemoteBeaconNode) :
    Option (Except String ProductionValidatorClient) × List Stage :=
  match (wait_for_node probe beacon_node fuel).1 with
  | none => (none, [])
  | some node =>
    match spec_req with
    | .error e =>
      (some (.error ("Unable to read eth2 config from beacon node: " ++ e)),
        [.connected])
    | .ok remote_eth2_config =>
      match genesis_req with
      | .error e =>
        (some (.error ("Unable to read genesis time from beacon node: " ++ e)),
          [.connected, .fetchEth2Config])
      | .ok genesis_time =>
        match validateCompat context remote_eth2_config with
        | .error e =>
          (some (.error e), [.connected, .fetchEth2Config, .fetchGenesisTime])
        | .ok ctxA =>
          let slot_clock := SystemTimeSlotClock.new ctxA.eth2_config.spec.genesis_slot
            genesis_time ctxA.eth2_config.spec.milliseconds_per_slot
          let store_result := selectStore client_config.key_source
            client_config.data_dir ctxA.eth2_config.spec load_from_disk
            insecure_ephemeral
          let tr6 : List Stage := [.connected, .fetchEth2Config, .fetchGenesisTime,
            .compatValidation, .adoptRemoteConfig, .buildSlotClock,
            storeStage client_config.key_source]
          match store_result with
          | .error e => (some (.error e), tr6)
          | .ok validator_store =>
            let tr7 := tr6 ++ [.reportCount validator_store.num_voting_validators]
            match ({ DutiesServiceBuilder.new with
                slot_clock := some slot_clock,
                validator_store := some validator_store,
                beacon_node := some node.clone,
                runtime_context := some (ctxA.service_context "duties") }).build with
            | .error e => (some (.error e), tr7)
            | .ok duties_service =>
              let tr8 := tr7 ++ [.buildDuties]
              match ({ ForkServiceBuilder.new with
                  slot_clock := some slot_clock,
                  beacon_node := some node.clone,
                  runtime_context := some (ctxA.service_context "fork") }).build with
              | .error e => (some (.error e), tr8)
              | .ok fork_service =>
                let tr9 := tr8 ++ [.buildFork]
                match ({ BlockServiceBuilder.new with
                    duties_service := some duties_service,
                    fork_service := some fork_service,
                    slot_clock := some slot_clock,
                    validator_store := some validator_store,
                    beacon_node := some node.clone,
                    runtime_context := some (ctxA.service_context "block") }).build with
                | .error e => (some (.error e), tr9)
                | .ok block_service =>
                  let tr10 := tr9 ++ [.buildBlock]
                  match ({ AttestationServiceBuilder.new with
                      duties_service := some duties_service,
                      fork_service := some fork_service,
                      slot_clock := some slot_clock,
                      validator_store := some validator_store,
                      beacon_node := some node,
                      runtime_context := some (ctxA.service_context "attestation") }).build with
                  | .error e => (some (.error e), tr10)
                  | .ok attestation_service =>
                    (some (.ok {
                        context := ctxA,
                        duties_service := duties_service,
                        fork_service := fork_service,
                        block_service := block_service,
                        attestation_service := attestation_service,
                        exit_signals := [] }),
                      tr10 ++ [.buildAttestation])

/-- The full bootstrap stage trace of a successful `new` run with key source
`ks` whose validator store reports `n` identities. -/
def canonicalStages (ks : KeySource) (n : Nat) : List Stage :=
  [.connected, .fetchEth2Config, .fetchGenesisTime, .compatValidation,
   .adoptRemoteConfig, .buildSlotClock, storeStage ks, .reportCount n,
   .buildDuties, .buildFork, .buildBlock, .buildAttestation]

/-- `start_service` (lines 205-235): starts the four services in the fixed
order duties, fork, block, attestation, pushing each returned exit signal
onto `exit_signals`; on failure returns the error wrapped with the failing
service's name.  The four `start_update_service` calls are oracles of the
spec the source passes (`&self.context.eth2_config.spec`).  Returns the
`Result`, the `exit_signals` vector after the call, and the names of the
services whose start was attempted, in order. -/
def ProductionValidatorClient.start_service (c : ProductionValidatorClient)
    (duties_start fork_start block_start attestation_start :
      ChainSpec → Except String Signal) :
    Except String Unit × List Signal × List String :=
  match duties_start c.context.eth2_config.spec with
  | .error e =>
    (.error ("Unable to start duties service: " ++ e), c.exit_signals, ["duties"])
  | .ok duties_exit =>
    let sigs1 := c.exit_signals ++ [duties_exit]
    match fork_start c.context.eth2_config.spec with
    | .error e =>
      (.error ("Unable to start fork service: " ++ e), sigs1, ["duties", "fork"])
    | .ok fork_exit =>
      let sigs2 := sigs1 ++ [fork_exit]
      match block_start c.context.eth2_config.spec with
      | .error e =>
        (.error ("Unable to start block service: " ++ e), sigs2,
          ["duties", "fork", "block"])
      | .ok block_exit =>
        let sigs3 := sigs2 ++ [block_exit]
        match attestation_start c.context.eth2_config.spec with
        | .error e =>
          (.error ("Unable to start attestation service: " ++ e), sigs3,
            ["duties", "fork", "block", "attestation"])
        | .ok attestation_exit =>
          (.ok (), sigs3 ++ [attestation_exit],
            ["duties", "fork", "block", "attestation"])

/-- The client value the success branch of `new` assembles (lines 163-201):
every service is built from the single slot clock, the single validator
store and the one node handle, and block/attestation embed the constructed
duties and fork services. -/
def builtClient (ctxA : RuntimeContext) (genesis_time : Nat) (vs : ValidatorStore)
    (node : RemoteBeaconNode) : ProductionValidatorClient :=
  let slot_clock := SystemTimeSlotClock.new ctxA.eth2_config.spec.genesis_slot
    genesis_time ctxA.eth2_config.spec.milliseconds_per_slot
  let duties : DutiesService := ⟨slot_clock, vs, node, ctxA.service_context "duties"⟩
  let fork : ForkService := ⟨slot_clock, node, ctxA.service_context "fork"⟩
  let block : BlockService :=
    ⟨duties, fork, slot_clock, vs, node, ctxA.service_context "block"⟩
  let att : AttestationService :=
    ⟨duties, fork, slot_clock, vs, node, ctxA.service_context "attestation"⟩
  ⟨ctxA, duties, fork, block, att, []⟩

/-- Concrete probe for closed witness runs: the node answers at once. -/
def probeOk : Nat → Except String String := fun _ => Except.ok "v0"

/-- Concrete chain spec for closed witness runs. -/
def specMainnet : ChainSpec := ⟨0, 12000⟩

/-- Concrete remote config whose identity is "mainnet". -/
def remoteMainnet : Eth2Config := ⟨"mainnet", specMainnet⟩

/-- Concrete local context agreeing with `remoteMainnet`. -/
def ctxMainnet : RuntimeContext := ⟨remoteMainnet, "root"⟩

/-- Concrete client config selecting the disk key source. -/
def cfgDisk : ClientConfig := ⟨"/data", KeySource.Disk⟩

/-- Concrete disk-store constructor yielding 42 validators. -/
def loadOk42 : String → ChainSpec → Except String ValidatorStore :=
  fun _ _ => Except.ok ⟨42⟩

/-- Concrete ephemeral-store constructor yielding 42 validators. -/
def ephOk42 : Nat × Nat → ChainSpec → Except String ValidatorStore :=
  fun _ _ => Except.ok ⟨42⟩

/-- Concrete node handle. -/
def node3 : RemoteBeaconNode := ⟨3⟩

/-- Concrete disk-store constructor that fails with an underlying cause. -/
def loadFail : String → ChainSpec → Except String ValidatorStore :=
  fun _ _ => Except.error "bad dir"

/-- Concrete duties service for builder witnesses. -/
def dutiesFixture : DutiesService :=
  ⟨SystemTimeSlotClock.new 0 1600000000 12000, ⟨42⟩, node3, ctxMainnet⟩

/-- If probes `i, i+1, ..., i+N-1` fail and probe `i+N` succeeds, the loop
breaks with its (unchanged) state after exactly `N + 1` probes, having armed
`N` fixed delays. -/
theorem waitForNodeLoop_fail_then_ok (probe : Nat → Except String String)
    (state : RemoteBeaconNode) :
    ∀ (N i fuel : Nat), N + 1 ≤ fuel →
      (∀ j, j < N → (probe (i + j)).isOk = false) →
      (probe (i + N)).isOk = true →
      waitForNodeLoop probe state fuel i = (some state, N + 1, List.replicate N RETRY_DELAY) := by
  intro N
  induction N with
  | zero =>
    intro i fuel hfuel _ hok
    obtain ⟨f, rfl⟩ := Nat.exists_eq_add_of_le hfuel
    cases hp : probe i with
    | ok v => simp [waitForNodeLoop, Nat.add_comm 1 f, hp]
    | error e => rw [Nat.add_zero] at hok; rw [hp] at hok; simp [Except.isOk, Except.toBool] at hok
  | succ N ih =>
    intro i fuel hfuel hfail hok
    obtain ⟨f, rfl⟩ := Nat.exists_eq_add_of_le hfuel
    have hf : N + 1 ≤ N + 1 + f := Nat.le_add_right _ _
    cases hp : probe i with
    | ok v =>
      have h0 := hfail 0 (Nat.succ_pos N)
      rw [Nat.add_zero] at h0; rw [hp] at h0; simp [Except.isOk, Except.toBool] at h0
    | error e =>
      have hfail' : ∀ j, j < N → (probe (i + 1 + j)).isOk = false := by
        intro j hj
        have := hfail (j + 1) (Nat.succ_lt_succ hj)
        rwa [show i + (j + 1) = i + 1 + j by omega] at this
      have hok' : (probe (i + 1 + N)).isOk = true := by
        rwa [show i + 1 + N = i + (N + 1) by omega]
      have hrec := ih (i + 1) (N + 1 + f) hf hfail' hok'
      show waitForNodeLoop probe state (N + 1 + 1 + f) i = _
      rw [show N + 1 + 1 + f = (N + 1 + f) + 1 by omega]
      simp only [waitForNodeLoop, hp, hrec, List.replicate_succ]

/-- C3 -- if the liveness probe fails exactly `N` times and then succeeds,
`wait_for_node` performs exactly `N + 1` probes and yields the very handle
that was passed in (via the final `.map(|_| beacon_node)`), arming `N`
fixed-length delays along the way. -/
theorem wait_for_node_retries_then_yields_handle
    (probe : Nat → Except String String) (node : RemoteBeaconNode) (N fuel : Nat)
    (hfuel : N + 1 ≤ fuel)
    (hfail : ∀ j, j < N → (probe j).isOk = false)
    (hok : (probe N).isOk = true) :
    wait_for_node probe node fuel = (some node, N + 1, List.replicate N RETRY_DELAY) := by
  unfold wait_for_node
  rw [waitForNodeLoop_fail_then_ok probe node.clone N 0 fuel hfuel
    (by simpa using hfail) (by simpa using hok)]
  rfl

/-- Witness for `wait_for_node_retries_then_yields_handle`: a probe that fails
twice then succeeds, observed with fuel 3, yields the passed-in handle after
exactly 3 probes and 2 delays. -/
theorem wait_for_node_retries_witness :
    wait_for_node (fun i => if i < 2 then Except.error "down" else Except.ok "v1")
        ⟨7⟩ 3 = (some ⟨7⟩, 3, List.replicate 2 RETRY_DELAY) :=
  wait_for_node_retries_then_yields_handle _ ⟨7⟩ 2 3 (by norm_num)
    (by decide) (by decide)

/-- Auxiliary for C4: under an always-failing probe the loop never breaks,
probing once and arming one 2-second delay per iteration, for any number of
observed iterations. -/
theorem waitForNodeLoop_always_fails (probe : Nat → Except String String)
    (state : RemoteBeaconNode) (hfail : ∀ i, (probe i).isOk = false) :
    ∀ fuel i, waitForNodeLoop probe state fuel i =
      (none, fuel, List.replicate fuel RETRY_DELAY) := by
  intro fuel
  induction fuel with
  | zero => intro i; rfl
  | succ f ih =>
    intro i
    cases hp : probe i with
    | ok v => have := hfail i; rw [hp] at this; simp [Except.isOk, Except.toBool] at this
    | error e => simp only [waitForNodeLoop, hp, ih (i + 1), List.replicate_succ]

/-- C4 -- if every probe fails, `wait_for_node` never terminates: for every
number of observed iterations it is still retrying, having issued one probe
and armed one fixed 2-second delay per iteration (no backoff), with no retry
cap and no escalation to an error. -/
theorem wait_for_node_never_terminates
    (probe : Nat → Except String String) (node : RemoteBeaconNode)
    (hfail : ∀ i, (probe i).isOk = false) :
    RETRY_DELAY = 2 ∧
      ∀ fuel, wait_for_node probe node fuel =
        (none, fuel, List.replicate fuel RETRY_DELAY) := by
  refine ⟨rfl, fun fuel => ?_⟩
  unfold wait_for_node
  rw [waitForNodeLoop_always_fails probe node.clone hfail fuel 0]
  rfl

/-- Witness for `wait_for_node_never_terminates`: the always-failing probe at
fuel 3 is still retrying after 3 probes and 3 two-second delays. -/
theorem wait_for_node_never_terminates_witness :
    wait_for_node (fun _ => Except.error "down") ⟨1⟩ 3 =
      (none, 3, List.replicate 3 RETRY_DELAY) :=
  (wait_for_node_never_terminates (fun _ => Except.error "down") ⟨1⟩ (fun _ => rfl)).2 3

/-- C5 -- the time source is a pure monotone function of the queried time:
`slot_for` is monotone non-decreasing, `slot_for genesis_time = genesis_slot`,
and with genesis time 1600000000, a 12-second slot duration and genesis
slot 0, `slot_for 1600000000 = 0` and `slot_for 1600000024 = 2`. -/
theorem slot_clock_slot_for_spec :
    (∀ (c : SystemTimeSlotClock) (t1 t2 : Nat), t1 ≤ t2 →
        c.slot_for t1 ≤ c.slot_for t2)
    ∧ (∀ c : SystemTimeSlotClock, c.slot_for c.genesis_seconds = c.genesis_slot)
    ∧ (SystemTimeSlotClock.new 0 1600000000 12000).slot_for 1600000000 = 0
    ∧ (SystemTimeSlotClock.new 0 1600000000 12000).slot_for 1600000024 = 2 := by
  refine ⟨fun c t1 t2 h => ?_, fun c => ?_, by norm_num [SystemTimeSlotClock.slot_for, SystemTimeSlotClock.new], by norm_num [SystemTimeSlotClock.slot_for, SystemTimeSlotClock.new]⟩
  · exact Nat.add_le_add_left
      (Nat.div_le_div_right (Nat.mul_le_mul_right 1000 (Nat.sub_le_sub_right h _))) _
  · simp [SystemTimeSlotClock.slot_for]

/-- Witness for `slot_clock_slot_for_spec`: the monotonicity conjunct applied
at the concrete clock of scenario A with times 1600000000 ≤ 1600000024. -/
theorem slot_clock_slot_for_spec_witness :
    (SystemTimeSlotClock.new 0 1600000000 12000).slot_for 1600000000 ≤
      (SystemTimeSlotClock.new 0 1600000000 12000).slot_for 1600000024 :=
  slot_clock_slot_for_spec.1 (SystemTimeSlotClock.new 0 1600000000 12000)
    1600000000 1600000024 (by norm_num)


/-- Shape of a `new` run that never reaches the node: nothing else happens. -/
theorem new_not_connected
    (probe : Nat → Except String String) (fuel : Nat)
    (spec_req : Except String Eth2Config) (genesis_req : Except String Nat)
    (load_from_disk : String → ChainSpec → Except String ValidatorStore)
    (insecure_ephemeral : Nat × Nat → ChainSpec → Except String ValidatorStore)
    (context : RuntimeContext) (client_config : ClientConfig)
    (beacon_node : RemoteBeaconNode)
    (h1 : (wait_for_node probe beacon_node fuel).1 = none) :
    ProductionValidatorClient.new probe fuel spec_req genesis_req load_from_disk
      insecure_ephemeral context client_config beacon_node = (none, []) := by
  simp only [ProductionValidatorClient.new, h1]

/-- Shape of a `new` run in which the node answered but the compatibility
check rejects the remote config: the error is returned as-is and the trace
stops at the genesis fetch — no store is selected and no service is built. -/
theorem new_compat_error
    (probe : Nat → Except String String) (fuel : Nat)
    (remote : Eth2Config) (genesis_time : Nat)
    (load_from_disk : String → ChainSpec → Except String ValidatorStore)
    (insecure_ephemeral : Nat × Nat → ChainSpec → Except String ValidatorStore)
    (context : RuntimeContext) (client_config : ClientConfig)
    (beacon_node node : RemoteBeaconNode) (e : String)
    (h1 : (wait_for_node probe beacon_node fuel).1 = some node)
    (h2 : validateCompat context remote = .error e) :
    ProductionValidatorClient.new probe fuel (.ok remote) (.ok genesis_time)
        load_from_disk insecure_ephemeral context client_config beacon_node =
      (some (.error e),
        [.connected, .fetchEth2Config, .fetchGenesisTime]) := by
  simp only [ProductionValidatorClient.new, h1, h2]

/-- Shape of a `new` run in which the selected validator-store constructor
fails: its error string is propagated unwrapped (`?` at lines 144 and 153)
and no service is built. -/
theorem new_store_error
    (probe : Nat → Except String String) (fuel : Nat)
    (remote : Eth2Config) (genesis_time : Nat)
    (load_from_disk : String → ChainSpec → Except String ValidatorStore)
    (insecure_ephemeral : Nat × Nat → ChainSpec → Except String ValidatorStore)
    (context ctxA : RuntimeContext) (client_config : ClientConfig)
    (beacon_node node : RemoteBeaconNode) (e : String)
    (h1 : (wait_for_node probe beacon_node fuel).1 = some node)
    (h2 : validateCompat context remote = .ok ctxA)
    (h3 : selectStore client_config.key_source client_config.data_dir
        ctxA.eth2_config.spec load_from_disk insecure_ephemeral = .error e) :
    ProductionValidatorClient.new probe fuel (.ok remote) (.ok genesis_time)
        load_from_disk insecure_ephemeral context client_config beacon_node =
      (some (.error e),
        [.connected, .fetchEth2Config, .fetchGenesisTime, .compatValidation,
         .adoptRemoteConfig, .buildSlotClock,
         storeStage client_config.key_source]) := by
  simp only [ProductionValidatorClient.new, h1, h2, h3]

/-- Shape of a successful `new` run: the client is `builtClient` of the
adopted context, the fetched genesis time, the constructed store and the
node handle, and the trace is the canonical stage list. -/
theorem new_success
    (probe : Nat → Except String String) (fuel : Nat)
    (remote : Eth2Config) (genesis_time : Nat)
    (load_from_disk : String → ChainSpec → Except String ValidatorStore)
    (insecure_ephemeral : Nat × Nat → ChainSpec → Except String ValidatorStore)
    (context ctxA : RuntimeContext) (client_config : ClientConfig)
    (beacon_node node : RemoteBeaconNode) (vs : ValidatorStore)
    (h1 : (wait_for_node probe beacon_node fuel).1 = some node)
    (h2 : validateCompat context remote = .ok ctxA)
    (h3 : selectStore client_config.key_source client_config.data_dir
        ctxA.eth2_config.spec load_from_disk insecure_ephemeral = .ok vs) :
    ProductionValidatorClient.new probe fuel (.ok remote) (.ok genesis_time)
        load_from_disk insecure_ephemeral context client_config beacon_node =
      (some (.ok (builtClient ctxA genesis_time vs node)),
        canonicalStages client_config.key_source vs.num_voting_validators) := by
  simp only [ProductionValidatorClient.new, h1, h2, h3]
  rfl

/-- Shape of a `new` run in which the node answered but the eth2-config fetch
failed: the wrapped error is returned and nothing later happens. -/
theorem new_spec_req_error
    (probe : Nat → Except String String) (fuel : Nat)
    (genesis_req : Except String Nat)
    (load_from_disk : String → ChainSpec → Except String ValidatorStore)
    (insecure_ephemeral : Nat × Nat → ChainSpec → Except String ValidatorStore)
    (context : RuntimeContext) (client_config : ClientConfig)
    (beacon_node node : RemoteBeaconNode) (e : String)
    (h1 : (wait_for_node probe beacon_node fuel).1 = some node) :
    ProductionValidatorClient.new probe fuel (.error e) genesis_req load_from_disk
        insecure_ephemeral context client_config beacon_node =
      (some (.error ("Unable to read eth2 config from beacon node: " ++ e)),
        [.connected]) := by
  simp only [ProductionValidatorClient.new, h1]

/-- Shape of a `new` run in which the genesis-time fetch failed: the wrapped
error is returned and nothing later happens. -/
theorem new_genesis_req_error
    (probe : Nat → Except String String) (fuel : Nat) (remote : Eth2Config)
    (load_from_disk : String → ChainSpec → Except String ValidatorStore)
    (insecure_ephemeral : Nat × Nat → ChainSpec → Except String ValidatorStore)
    (context : RuntimeContext) (client_config : ClientConfig)
    (beacon_node node : RemoteBeaconNode) (e : String)
    (h1 : (wait_for_node probe beacon_node fuel).1 = some node) :
    ProductionValidatorClient.new probe fuel (.ok remote) (.error e) load_from_disk
        insecure_ephemeral context client_config beacon_node =
      (some (.error ("Unable to read genesis time from beacon node: " ++ e)),
        [.connected, .fetchEth2Config]) := by
  simp only [ProductionValidatorClient.new, h1]

/-- Inversion: a `new` run that yields `Ok(client)` went through every stage —
the node was reached, both fetches succeeded, validation adopted a context,
the selected store constructor succeeded, and the client is exactly the
assembled `builtClient`. -/
theorem new_ok_elim
    (probe : Nat → Except String String) (fuel : Nat)
    (spec_req : Except String Eth2Config) (genesis_req : Except String Nat)
    (load_from_disk : String → ChainSpec → Except String ValidatorStore)
    (insecure_ephemeral : Nat × Nat → ChainSpec → Except String ValidatorStore)
    (context : RuntimeContext) (client_config : ClientConfig)
    (beacon_node : RemoteBeaconNode) (client : ProductionValidatorClient)
    (hc : (ProductionValidatorClient.new probe fuel spec_req genesis_req
        load_from_disk insecure_ephemeral context client_config beacon_node).1 =
      some (.ok client)) :
    ∃ remote genesis_time ctxA vs node,
      (wait_for_node probe beacon_node fuel).1 = some node ∧
      spec_req = .ok remote ∧ genesis_req = .ok genesis_time ∧
      validateCompat context remote = .ok ctxA ∧
      selectStore client_config.key_source client_config.data_dir
        ctxA.eth2_config.spec load_from_disk insecure_ephemeral = .ok vs ∧
      client = builtClient ctxA genesis_time vs node := by
  cases h1 : (wait_for_node probe beacon_node fuel).1 with
  | none =>
    rw [new_not_connected probe fuel spec_req genesis_req load_from_disk
      insecure_ephemeral context client_config beacon_node h1] at hc
    simp at hc
  | some node =>
    cases spec_req with
    | error e =>
      rw [new_spec_req_error probe fuel genesis_req load_from_disk
        insecure_ephemeral context client_config beacon_node node e h1] at hc
      simp at hc
    | ok remote =>
      cases genesis_req with
      | error e =>
        rw [new_genesis_req_error probe fuel remote load_from_disk
          insecure_ephemeral context client_config beacon_node node e h1] at hc
        simp at hc
      | ok genesis_time =>
        cases h2 : validateCompat context remote with
        | error e =>
          rw [new_compat_error probe fuel remote genesis_time load_from_disk
            insecure_ephemeral context client_config beacon_node node e h1 h2] at hc
          simp at hc
        | ok ctxA =>
          cases h3 : selectStore client_config.key_source client_config.data_dir
              ctxA.eth2_config.spec load_from_disk insecure_ephemeral with
          | error e =>
            rw [new_store_error probe fuel remote genesis_time load_from_disk
              insecure_ephemeral context ctxA client_config beacon_node node e
              h1 h2 h3] at hc
            simp at hc
          | ok vs =>
            rw [new_success probe fuel remote genesis_time load_from_disk
              insecure_ephemeral context ctxA client_config beacon_node node vs
              h1 h2 h3] at hc
            simp at hc
            exact ⟨remote, genesis_time, ctxA, vs, node, rfl, rfl, rfl, h2, h3,
              hc.symm⟩

/-- C1 -- compatibility validation succeeds iff the local and remote
`spec_constants` agree; on success the remote's full `eth2_config` is adopted
as the context's configuration; on inequality `new` returns an error string
containing both identifiers and constructs no service (its stage trace stops
at the genesis fetch). -/
theorem compat_validation_spec (context : RuntimeContext) (remote : Eth2Config) :
    ((validateCompat context remote).isOk = true ↔
        context.eth2_config.spec_constants = remote.spec_constants)
    ∧ (context.eth2_config.spec_constants = remote.spec_constants →
        validateCompat context remote = .ok { context with eth2_config := remote })
    ∧ (context.eth2_config.spec_constants ≠ remote.spec_constants →
        validateCompat context remote =
            .error (incompatibleMsg remote.spec_constants
              context.eth2_config.spec_constants)
          ∧ containsSub
              (incompatibleMsg remote.spec_constants
                context.eth2_config.spec_constants)
              remote.spec_constants
          ∧ containsSub
              (incompatibleMsg remote.spec_constants
                context.eth2_config.spec_constants)
              context.eth2_config.spec_constants
          ∧ ∀ (probe : Nat → Except String String) (fuel genesis_time : Nat)
              (load_from_disk : String → ChainSpec → Except String ValidatorStore)
              (insecure_ephemeral : Nat × Nat → ChainSpec → Except String ValidatorStore)
              (client_config : ClientConfig) (beacon_node node : RemoteBeaconNode),
              (wait_for_node probe beacon_node fuel).1 = some node →
              ProductionValidatorClient.new probe fuel (.ok remote)
                  (.ok genesis_time) load_from_disk insecure_ephemeral context
                  client_config beacon_node =
                (some (.error (incompatibleMsg remote.spec_constants
                    context.eth2_config.spec_constants)),
                  [.connected, .fetchEth2Config, .fetchGenesisTime])) := by
  by_cases h : context.eth2_config.spec_constants = remote.spec_constants
  · refine ⟨?_, fun _ => ?_, fun hne => absurd h hne⟩
    · simp [validateCompat, h, Except.isOk, Except.toBool]
    · simp [validateCompat, h]
  · have hv : validateCompat context remote =
        .error (incompatibleMsg remote.spec_constants
          context.eth2_config.spec_constants) := by
      simp [validateCompat, h]
    refine ⟨?_, fun he => absurd he h, fun _ => ⟨hv, ?_, ?_, ?_⟩⟩
    · simp [hv, Except.isOk, Except.toBool, h]
    · exact ⟨"Beacon node is using an incompatible spec. Got ",
        ", expected " ++ context.eth2_config.spec_constants,
        by simp [incompatibleMsg, String.append_assoc]⟩
    · exact ⟨"Beacon node is using an incompatible spec. Got " ++
          remote.spec_constants ++ ", expected ", "",
        by simp [incompatibleMsg, String.append_assoc, String.append_empty]⟩
    · intro probe fuel genesis_time load_from_disk insecure_ephemeral
        client_config beacon_node node h1
      exact new_compat_error probe fuel remote genesis_time load_from_disk
        insecure_ephemeral context client_config beacon_node node _ h1 hv

/-- Witness for `compat_validation_spec`: scenario B — local "testnet" versus
remote "mainnet" yields the error naming both identifiers. -/
theorem compat_validation_spec_witness :
    validateCompat ⟨⟨"testnet", specMainnet⟩, "root"⟩ remoteMainnet =
      .error (incompatibleMsg "mainnet" "testnet") :=
  ((compat_validation_spec ⟨⟨"testnet", specMainnet⟩, "root"⟩ remoteMainnet).2.2
    (by decide)).1

/-- C2 counterexample -- in a concrete successful run of `new`, the
completed-stage trace places `fetchGenesisTime` strictly before
`compatValidation`: genesis time is retrieved (lines 104-111) before the
compatibility check runs (lines 112-119), refuting the claimed order in which
compatibility validation completes before the genesis/time stage. -/
theorem new_genesis_before_compat_counterexample :
    (ProductionValidatorClient.new probeOk 1 (.ok remoteMainnet) (.ok 1600000000)
          loadOk42 ephOk42 ctxMainnet cfgDisk node3).2.indexOf
        Stage.fetchGenesisTime <
      (ProductionValidatorClient.new probeOk 1 (.ok remoteMainnet)
          (.ok 1600000000) loadOk42 ephOk42 ctxMainnet cfgDisk node3).2.indexOf
        Stage.compatValidation := by
  decide

/-- C2 (amended) -- `new` is a sequential pipeline: every run's
completed-stage trace is a prefix of the canonical order (node reachability,
eth2-config fetch, genesis-time fetch, compatibility validation, adoption of
the remote config, time-source derivation, validator-store construction,
count report, then the four service constructions), so no stage begins before
every earlier stage's result is available and the time source is derived only
after compatibility validation; a fully successful run completes the whole
list. -/
theorem new_stage_order
    (probe : Nat → Except String String) (fuel : Nat)
    (spec_req : Except String Eth2Config) (genesis_req : Except String Nat)
    (load_from_disk : String → ChainSpec → Except String ValidatorStore)
    (insecure_ephemeral : Nat × Nat → ChainSpec → Except String ValidatorStore)
    (context : RuntimeContext) (client_config : ClientConfig)
    (beacon_node : RemoteBeaconNode) :
    (∃ n rest,
        (ProductionValidatorClient.new probe fuel spec_req genesis_req
            load_from_disk insecure_ephemeral context client_config
            beacon_node).2 ++ rest =
          canonicalStages client_config.key_source n)
    ∧ (∀ client,
        (ProductionValidatorClient.new probe fuel spec_req genesis_req
            load_from_disk insecure_ephemeral context client_config
            beacon_node).1 = some (.ok client) →
        (ProductionValidatorClient.new probe fuel spec_req genesis_req
            load_from_disk insecure_ephemeral context client_config
            beacon_node).2 =
          canonicalStages client_config.key_source
            client.duties_service.validator_store.num_voting_validators) := by
  constructor
  · cases h1 : (wait_for_node probe beacon_node fuel).1 with
    | none =>
      rw [new_not_connected probe fuel spec_req genesis_req load_from_disk
        insecure_ephemeral context client_config beacon_node h1]
      exact ⟨0, canonicalStages client_config.key_source 0, rfl⟩
    | some node =>
      cases spec_req with
      | error e =>
        rw [new_spec_req_error probe fuel genesis_req load_from_disk
          insecure_ephemeral context client_config beacon_node node e h1]
        exact ⟨0, _, rfl⟩
      | ok remote =>
        cases genesis_req with
        | error e =>
          rw [new_genesis_req_error probe fuel remote load_from_disk
            insecure_ephemeral context client_config beacon_node node e h1]
          exact ⟨0, _, rfl⟩
        | ok genesis_time =>
          cases h2 : validateCompat context remote with
          | error e =>
            rw [new_compat_error probe fuel remote genesis_time load_from_disk
              insecure_ephemeral context client_config beacon_node node e h1 h2]
            exact ⟨0, _, rfl⟩
          | ok ctxA =>
            cases h3 : selectStore client_config.key_source client_config.data_dir
                ctxA.eth2_config.spec load_from_disk insecure_ephemeral with
            | error e =>
              rw [new_store_error probe fuel remote genesis_time load_from_disk
                insecure_ephemeral context ctxA client_config beacon_node node e
                h1 h2 h3]
              exact ⟨0, _, rfl⟩
            | ok vs =>
              rw [new_success probe fuel remote genesis_time load_from_disk
                insecure_ephemeral context ctxA client_config beacon_node node vs
                h1 h2 h3]
              exact ⟨vs.num_voting_validators, [], by simp⟩
  · intro client hc
    obtain ⟨remote, genesis_time, ctxA, vs, node, h1, hsp, hg, h2, h3, hcl⟩ :=
      new_ok_elim probe fuel spec_req genesis_req load_from_disk
        insecure_ephemeral context client_config beacon_node client hc
    subst hsp; subst hg; subst hcl
    rw [new_success probe fuel remote genesis_time load_from_disk
      insecure_ephemeral context ctxA client_config beacon_node node vs h1 h2 h3]
    rfl

/-- Witness for `new_stage_order`: in a concrete fully successful run the
trace equals the canonical list with the store's 42 validators reported. -/
theorem new_stage_order_witness :
    (ProductionValidatorClient.new probeOk 1 (.ok remoteMainnet) (.ok 1600000000)
        loadOk42 ephOk42 ctxMainnet cfgDisk node3).2 =
      canonicalStages KeySource.Disk 42 :=
  (new_stage_order probeOk 1 (.ok remoteMainnet) (.ok 1600000000) loadOk42
      ephOk42 ctxMainnet cfgDisk node3).2
    (builtClient ctxMainnet 1600000000 ⟨42⟩ node3) rfl

/-- C6 -- `start_service` starts the four services in the fixed order duties,
fork, block, attestation; after each successful start the returned exit
signal is appended to the registry; if a start fails, the call returns at
once with an error naming the failing service, attempts no later service,
and leaves the signals of the services started earlier in this call in the
registry. -/
theorem start_service_spec (c : ProductionValidatorClient)
    (duties_start fork_start block_start attestation_start :
      ChainSpec → Except String Signal) :
    (∀ s1 s2 s3 s4,
        duties_start c.context.eth2_config.spec = .ok s1 →
        fork_start c.context.eth2_config.spec = .ok s2 →
        block_start c.context.eth2_config.spec = .ok s3 →
        attestation_start c.context.eth2_config.spec = .ok s4 →
        c.start_service duties_start fork_start block_start attestation_start =
          (.ok (), c.exit_signals ++ [s1, s2, s3, s4],
            ["duties", "fork", "block", "attestation"]))
    ∧ (∀ e, duties_start c.context.eth2_config.spec = .error e →
        c.start_service duties_start fork_start block_start attestation_start =
          (.error ("Unable to start duties service: " ++ e), c.exit_signals,
            ["duties"]))
    ∧ (∀ s1 e,
        duties_start c.context.eth2_config.spec = .ok s1 →
        fork_start c.context.eth2_config.spec = .error e →
        c.start_service duties_start fork_start block_start attestation_start =
          (.error ("Unable to start fork service: " ++ e),
            c.exit_signals ++ [s1], ["duties", "fork"]))
    ∧ (∀ s1 s2 e,
        duties_start c.context.eth2_config.spec = .ok s1 →
        fork_start c.context.eth2_config.spec = .ok s2 →
        block_start c.context.eth2_config.spec = .error e →
        c.start_service duties_start fork_start block_start attestation_start =
          (.error ("Unable to start block service: " ++ e),
            c.exit_signals ++ [s1, s2], ["duties", "fork", "block"]))
    ∧ (∀ s1 s2 s3 e,
        duties_start c.context.eth2_config.spec = .ok s1 →
        fork_start c.context.eth2_config.spec = .ok s2 →
        block_start c.context.eth2_config.spec = .ok s3 →
        attestation_start c.context.eth2_config.spec = .error e →
        c.start_service duties_start fork_start block_start attestation_start =
          (.error ("Unable to start attestation service: " ++ e),
            c.exit_signals ++ [s1, s2, s3],
            ["duties", "fork", "block", "attestation"])) := by
  refine ⟨?_, ?_, ?_, ?_, ?_⟩
  · intro s1 s2 s3 s4 h1 h2 h3 h4
    simp [ProductionValidatorClient.start_service, h1, h2, h3, h4]
  · intro e h1
    simp [ProductionValidatorClient.start_service, h1]
  · intro s1 e h1 h2
    simp [ProductionValidatorClient.start_service, h1, h2]
  · intro s1 s2 e h1 h2 h3
    simp [ProductionValidatorClient.start_service, h1, h2, h3]
  · intro s1 s2 s3 e h1 h2 h3 h4
    simp [ProductionValidatorClient.start_service, h1, h2, h3, h4]

/-- Witness for `start_service_spec`: on a concrete client, duties and fork
start, block fails — the error names the block service, the two earlier
signals stay registered, and attestation is never attempted. -/
theorem start_service_spec_witness :
    (builtClient ctxMainnet 1600000000 ⟨42⟩ node3).start_service
        (fun _ => Except.ok ⟨1⟩) (fun _ => Except.ok ⟨2⟩)
        (fun _ => Except.error "boom") (fun _ => Except.ok ⟨4⟩) =
      (.error ("Unable to start block service: " ++ "boom"),
        (builtClient ctxMainnet 1600000000 ⟨42⟩ node3).exit_signals ++ [⟨1⟩, ⟨2⟩],
        ["duties", "fork", "block"]) :=
  (start_service_spec (builtClient ctxMainnet 1600000000 ⟨42⟩ node3)
      (fun _ => Except.ok ⟨1⟩) (fun _ => Except.ok ⟨2⟩)
      (fun _ => Except.error "boom") (fun _ => Except.ok ⟨4⟩)).2.2.2.1
    ⟨1⟩ ⟨2⟩ "boom" rfl rfl rfl

/-- C7 -- in the service graph a successful `new` builds, the block and
attestation services embed the already-constructed duties and fork services,
all four services hold the single slot clock derived from genesis data, the
three store-holding services hold the single validator store, and all four
hold the one node handle. -/
theorem service_graph_dependencies
    (probe : Nat → Except String String) (fuel : Nat) (remote : Eth2Config)
    (genesis_time : Nat)
    (load_from_disk : String → ChainSpec → Except String ValidatorStore)
    (insecure_ephemeral : Nat × Nat → ChainSpec → Except String ValidatorStore)
    (context ctxA : RuntimeContext) (client_config : ClientConfig)
    (beacon_node node : RemoteBeaconNode) (vs : ValidatorStore)
    (h1 : (wait_for_node probe beacon_node fuel).1 = some node)
    (h2 : validateCompat context remote = .ok ctxA)
    (h3 : selectStore client_config.key_source client_config.data_dir
        ctxA.eth2_config.spec load_from_disk insecure_ephemeral = .ok vs) :
    ∀ client,
      (ProductionValidatorClient.new probe fuel (.ok remote) (.ok genesis_time)
          load_from_disk insecure_ephemeral context client_config
          beacon_node).1 = some (.ok client) →
      client.block_service.duties_service = client.duties_service
      ∧ client.block_service.fork_service = client.fork_service
      ∧ client.attestation_service.duties_service = client.duties_service
      ∧ client.attestation_service.fork_service = client.fork_service
      ∧ client.fork_service.slot_clock = client.duties_service.slot_clock
      ∧ client.block_service.slot_clock = client.duties_service.slot_clock
      ∧ client.attestation_service.slot_clock = client.duties_service.slot_clock
      ∧ client.block_service.validator_store = client.duties_service.validator_store
      ∧ client.attestation_service.validator_store =
          client.duties_service.validator_store
      ∧ client.duties_service.validator_store = vs
      ∧ client.duties_service.slot_clock =
          SystemTimeSlotClock.new ctxA.eth2_config.spec.genesis_slot genesis_time
            ctxA.eth2_config.spec.milliseconds_per_slot
      ∧ client.duties_service.beacon_node = node
      ∧ client.fork_service.beacon_node = node
      ∧ client.block_service.beacon_node = node
      ∧ client.attestation_service.beacon_node = node := by
  intro client hc
  rw [new_success probe fuel remote genesis_time load_from_disk
    insecure_ephemeral context ctxA client_config beacon_node node vs
    h1 h2 h3] at hc
  simp at hc
  subst hc
  exact ⟨rfl, rfl, rfl, rfl, rfl, rfl, rfl, rfl, rfl, rfl, rfl, rfl, rfl, rfl,
    rfl⟩

/-- Witness for `service_graph_dependencies`: the concrete successful run's
block service embeds the run's duties service. -/
theorem service_graph_dependencies_witness :
    (builtClient ctxMainnet 1600000000 ⟨42⟩ node3).block_service.duties_service =
      (builtClient ctxMainnet 1600000000 ⟨42⟩ node3).duties_service :=
  (service_graph_dependencies probeOk 1 remoteMainnet 1600000000 loadOk42
      ephOk42 ctxMainnet ctxMainnet cfgDisk node3 node3 ⟨42⟩ rfl rfl rfl
      (builtClient ctxMainnet 1600000000 ⟨42⟩ node3) rfl).1

/-- C8 -- exactly one validator-store construction mode is selected, once,
from the key source: `Disk` invokes only the disk loader and
`TestingKeypairRange` only the ephemeral generator; a failure of the selected
constructor makes `new` fail with the underlying error unwrapped; and on
success the store's total identity count is reported in the stage trace. -/
theorem validator_store_selection_spec :
    (∀ (data_dir : String) (spec : ChainSpec)
        (load_from_disk : String → ChainSpec → Except String ValidatorStore)
        (insecure_ephemeral : Nat × Nat → ChainSpec → Except String ValidatorStore),
        selectStore KeySource.Disk data_dir spec load_from_disk
          insecure_ephemeral = load_from_disk data_dir spec)
    ∧ (∀ (range : Nat × Nat) (data_dir : String) (spec : ChainSpec)
        (load_from_disk : String → ChainSpec → Except String ValidatorStore)
        (insecure_ephemeral : Nat × Nat → ChainSpec → Except String ValidatorStore),
        selectStore (KeySource.TestingKeypairRange range) data_dir spec
          load_from_disk insecure_ephemeral = insecure_ephemeral range spec)
    ∧ (∀ (probe : Nat → Except String String) (fuel : Nat) (remote : Eth2Config)
        (genesis_time : Nat)
        (load_from_disk : String → ChainSpec → Except String ValidatorStore)
        (insecure_ephemeral : Nat × Nat → ChainSpec → Except String ValidatorStore)
        (context ctxA : RuntimeContext) (client_config : ClientConfig)
        (beacon_node node : RemoteBeaconNode) (e : String),
        (wait_for_node probe beacon_node fuel).1 = some node →
        validateCompat context remote = .ok ctxA →
        selectStore client_config.key_source client_config.data_dir
          ctxA.eth2_config.spec load_from_disk insecure_ephemeral = .error e →
        (ProductionValidatorClient.new probe fuel (.ok remote) (.ok genesis_time)
            load_from_disk insecure_ephemeral context client_config
            beacon_node).1 = some (.error e))
    ∧ (∀ (probe : Nat → Except String String) (fuel : Nat) (remote : Eth2Config)
        (genesis_time : Nat)
        (load_from_disk : String → ChainSpec → Except String ValidatorStore)
        (insecure_ephemeral : Nat × Nat → ChainSpec → Except String ValidatorStore)
        (context ctxA : RuntimeContext) (client_config : ClientConfig)
        (beacon_node node : RemoteBeaconNode) (vs : ValidatorStore),
        (wait_for_node probe beacon_node fuel).1 = some node →
        validateCompat context remote = .ok ctxA →
        selectStore client_config.key_source client_config.data_dir
          ctxA.eth2_config.spec load_from_disk insecure_ephemeral = .ok vs →
        Stage.reportCount vs.num_voting_validators ∈
          (ProductionValidatorClient.new probe fuel (.ok remote)
              (.ok genesis_time) load_from_disk insecure_ephemeral context
              client_config beacon_node).2) := by
  refine ⟨fun _ _ _ _ => rfl, fun _ _ _ _ _ => rfl, ?_, ?_⟩
  · intro probe fuel remote genesis_time load_from_disk insecure_ephemeral
      context ctxA client_config beacon_node node e h1 h2 h3
    rw [new_store_error probe fuel remote genesis_time load_from_disk
      insecure_ephemeral context ctxA client_config beacon_node node e h1 h2 h3]
  · intro probe fuel remote genesis_time load_from_disk insecure_ephemeral
      context ctxA client_config beacon_node node vs h1 h2 h3
    rw [new_success probe fuel remote genesis_time load_from_disk
      insecure_ephemeral context ctxA client_config beacon_node node vs h1 h2 h3]
    simp [canonicalStages]

/-- Witness for `validator_store_selection_spec`: a concrete run whose disk
loader fails with "bad dir" makes `new` fail with exactly that error. -/
theorem validator_store_selection_spec_witness :
    (ProductionValidatorClient.new probeOk 1 (.ok remoteMainnet)
        (.ok 1600000000) loadFail ephOk42 ctxMainnet cfgDisk node3).1 =
      some (.error "bad dir") :=
  validator_store_selection_spec.2.2.1 probeOk 1 remoteMainnet 1600000000
    loadFail ephOk42 ctxMainnet ctxMainnet cfgDisk node3 node3 "bad dir"
    rfl rfl rfl

/-- C9 -- each service builder's `build()` succeeds exactly when every
required dependency has been set, and returns a descriptive error (never a
partial handle) whenever any required setter was omitted, regardless of the
others; in particular a block-service builder without a fork service errors. -/
theorem builder_completeness_spec :
    (∀ b : DutiesServiceBuilder, (b.build).isOk = true ↔
        b.slot_clock.isSome = true ∧ b.validator_store.isSome = true ∧
          b.beacon_node.isSome = true ∧ b.runtime_context.isSome = true)
    ∧ (∀ b : ForkServiceBuilder, (b.build).isOk = true ↔
        b.slot_clock.isSome = true ∧ b.beacon_node.isSome = true ∧
          b.runtime_context.isSome = true)
    ∧ (∀ b : BlockServiceBuilder, (b.build).isOk = true ↔
        b.duties_service.isSome = true ∧ b.fork_service.isSome = true ∧
          b.slot_clock.isSome = true ∧ b.validator_store.isSome = true ∧
          b.beacon_node.isSome = true ∧ b.runtime_context.isSome = true)
    ∧ (∀ b : AttestationServiceBuilder, (b.build).isOk = true ↔
        b.duties_service.isSome = true ∧ b.fork_service.isSome = true ∧
          b.slot_clock.isSome = true ∧ b.validator_store.isSome = true ∧
          b.beacon_node.isSome = true ∧ b.runtime_context.isSome = true)
    ∧ (∀ b : BlockServiceBuilder, b.fork_service = none →
        ∃ msg, b.build = Except.error msg) := by
  refine ⟨?_, ?_, ?_, ?_, ?_⟩
  · intro b
    obtain ⟨f1, f2, f3, f4⟩ := b
    cases f1 <;> cases f2 <;> cases f3 <;> cases f4 <;>
      simp [DutiesServiceBuilder.build, Except.isOk, Except.toBool]
  · intro b
    obtain ⟨f1, f2, f3⟩ := b
    cases f1 <;> cases f2 <;> cases f3 <;>
      simp [ForkServiceBuilder.build, Except.isOk, Except.toBool]
  · intro b
    obtain ⟨f1, f2, f3, f4, f5, f6⟩ := b
    cases f1 <;> cases f2 <;> cases f3 <;> cases f4 <;> cases f5 <;> cases f6 <;>
      simp [BlockServiceBuilder.build, Except.isOk, Except.toBool]
  · intro b
    obtain ⟨f1, f2, f3, f4, f5, f6⟩ := b
    cases f1 <;> cases f2 <;> cases f3 <;> cases f4 <;> cases f5 <;> cases f6 <;>
      simp [AttestationServiceBuilder.build, Except.isOk, Except.toBool]
  · intro b h
    obtain ⟨f1, f2, f3, f4, f5, f6⟩ := b
    simp only at h
    subst h
    cases f1 <;> cases f3 <;> cases f4 <;> cases f5 <;> cases f6 <;>
      exact ⟨_, rfl⟩

/-- Witness for `builder_completeness_spec`: scenario C — a block-service
builder with every setter supplied except the fork service returns an error
from `build()`. -/
theorem builder_completeness_spec_witness :
    ∃ msg,
      ({ BlockServiceBuilder.new with
          duties_service := some dutiesFixture,
          slot_clock := some (SystemTimeSlotClock.new 0 1600000000 12000),
          validator_store := some ⟨42⟩,
          beacon_node := some node3,
          runtime_context := some ctxMainnet } : BlockServiceBuilder).build =
        Except.error msg :=
  builder_completeness_spec.2.2.2.2 _ rfl

/-- C10 -- immediately after a successful `new` the exit-signal registry is
empty; a fully successful `start_service` call appends exactly the four
signals in the order duties, fork, block, attestation; and every
`start_service` call, however it ends, only appends to the registry — the
prior contents stay as a prefix. -/
theorem exit_signal_registry_spec :
    (∀ (probe : Nat → Except String String) (fuel : Nat)
        (spec_req : Except String Eth2Config) (genesis_req : Except String Nat)
        (load_from_disk : String → ChainSpec → Except String ValidatorStore)
        (insecure_ephemeral : Nat × Nat → ChainSpec → Except String ValidatorStore)
        (context : RuntimeContext) (client_config : ClientConfig)
        (beacon_node : RemoteBeaconNode) (client : ProductionValidatorClient),
        (ProductionValidatorClient.new probe fuel spec_req genesis_req
            load_from_disk insecure_ephemeral context client_config
            beacon_node).1 = some (.ok client) →
        client.exit_signals = [])
    ∧ (∀ (c : ProductionValidatorClient)
        (duties_start fork_start block_start attestation_start :
          ChainSpec → Except String Signal) (s1 s2 s3 s4 : Signal),
        duties_start c.context.eth2_config.spec = .ok s1 →
        fork_start c.context.eth2_config.spec = .ok s2 →
        block_start c.context.eth2_config.spec = .ok s3 →
        attestation_start c.context.eth2_config.spec = .ok s4 →
        (c.start_service duties_start fork_start block_start
            attestation_start).2.1 = c.exit_signals ++ [s1, s2, s3, s4])
    ∧ (∀ (c : ProductionValidatorClient)
        (duties_start fork_start block_start attestation_start :
          ChainSpec → Except String Signal),
        ∃ tail,
          (c.start_service duties_start fork_start block_start
              attestation_start).2.1 = c.exit_signals ++ tail) := by
  refine ⟨?_, ?_, ?_⟩
  · intro probe fuel spec_req genesis_req load_from_disk insecure_ephemeral
      context client_config beacon_node client hc
    obtain ⟨remote, genesis_time, ctxA, vs, node, h1, hsp, hg, h2, h3, hcl⟩ :=
      new_ok_elim probe fuel spec_req genesis_req load_from_disk
        insecure_ephemeral context client_config beacon_node client hc
    subst hcl
    rfl
  · intro c duties_start fork_start block_start attestation_start s1 s2 s3 s4
      h1 h2 h3 h4
    simp [ProductionValidatorClient.start_service, h1, h2, h3, h4]
  · intro c duties_start fork_start block_start attestation_start
    cases h1 : duties_start c.context.eth2_config.spec with
    | error e =>
      exact ⟨[], by simp [ProductionValidatorClient.start_service, h1]⟩
    | ok s1 =>
      cases h2 : fork_start c.context.eth2_config.spec with
      | error e =>
        exact ⟨[s1], by simp [ProductionValidatorClient.start_service, h1, h2]⟩
      | ok s2 =>
        cases h3 : block_start c.context.eth2_config.spec with
        | error e =>
          exact ⟨[s1, s2],
            by simp [ProductionValidatorClient.start_service, h1, h2, h3]⟩
        | ok s3 =>
          cases h4 : attestation_start c.context.eth2_config.spec with
          | error e =>
            exact ⟨[s1, s2, s3],
              by simp [ProductionValidatorClient.start_service, h1, h2, h3, h4]⟩
          | ok s4 =>
            exact ⟨[s1, s2, s3, s4],
              by simp [ProductionValidatorClient.start_service, h1, h2, h3, h4]⟩

/-- Witness for `exit_signal_registry_spec`: the concrete successful run's
client starts with an empty registry. -/
theorem exit_signal_registry_spec_witness :
    (builtClient ctxMainnet 1600000000 ⟨42⟩ node3).exit_signals = [] :=
  exit_signal_registry_spec.1 probeOk 1 (.ok remoteMainnet) (.ok 1600000000)
    loadOk42 ephOk42 ctxMainnet cfgDisk node3
    (builtClient ctxMainnet 1600000000 ⟨42⟩ node3) rfl
